import Mathlib

/-!
Verification development for the `device` package of this wireguard-go
snapshot (`src/device/noise-protocol.go`): the handshake message types,
the handshake transcript state, `Handshake.Clear`,
`CreateMessageInitiation` and `ConsumeMessageInitiation`.

Byte strings are modelled symbolically (a Dolev-Yao style term algebra):
every cryptographic primitive used by the source is represented by a
constructor, and `blen` gives the byte length of each term, which is what
the `chacha20poly1305.New` key-size check observes.  Fixed-size Go byte
arrays `[n]byte` are modelled as the subtype `Arr n` of terms of length
`n`.  Effectful collaborators that are not part of this file of the
repository (the random-bit source, the index table, the KDF chain) are
modelled from the specification, with explicit oracle inputs for
randomness.
-/

set_option autoImplicit false

namespace WG

/-- Symbolic byte strings: one constructor per primitive the source
applies to byte arrays.  `raw` injects arbitrary concrete bytes
(attacker-controlled input), `zeros n` is the all-zero array of length
`n`. -/
inductive Bytes where
  | zeros (n : Nat)
  | raw (bs : List Nat)
  | privkey (seed : Nat)
  | pubkey (sk : Bytes)
  | dh (sk pk : Bytes)
  | hashcat (h d : Bytes)
  | sum256 (d : Bytes)
  | kdf1 (ck d : Bytes)
  | kdf2fst (ck d : Bytes)
  | kdf2snd (ck d : Bytes)
  | seal (key nonce pt ad : Bytes)
  | tstamp (t : Nat)
deriving DecidableEq, Repr

/-- Byte length of a symbolic byte string.  Keys, hashes and DH outputs
are 32 bytes, a TAI64N timestamp is 12 bytes, and an AEAD seal adds the
16-byte poly1305 tag to the plaintext length. -/
def blen : Bytes → Nat
  | .zeros n => n
  | .raw bs => bs.length
  | .privkey _ => 32
  | .pubkey _ => 32
  | .dh _ _ => 32
  | .hashcat _ _ => 32
  | .sum256 _ => 32
  | .kdf1 _ _ => 32
  | .kdf2fst _ _ => 32
  | .kdf2snd _ _ => 32
  | .seal _ _ pt _ => blen pt + 16
  | .tstamp _ => 12

/-- Embeds the `isZero` helper of the device package: true iff every
byte of the array is zero.  On symbolic terms only the literally
all-zero arrays are zero. -/
def isZero : Bytes → Bool
  | .zeros _ => true
  | .raw bs => bs.all (fun b => b == 0)
  | _ => false

/-- Embeds the `setZero` helper of the device package: overwrite the
array with zero bytes in place (length preserved). -/
def setZero (b : Bytes) : Bytes := Bytes.zeros (blen b)

theorem blen_setZero (b : Bytes) : blen (setZero b) = blen b := rfl

theorem isZero_setZero (b : Bytes) : isZero (setZero b) = true := rfl

/-- A Go fixed-size byte array `[n]byte`: a symbolic byte string of
length exactly `n`. -/
def Arr (n : Nat) : Type := { b : Bytes // blen b = n }

instance (n : Nat) : DecidableEq (Arr n) := fun a b =>
  if h : a.val = b.val then .isTrue (Subtype.ext h)
  else .isFalse (fun hh => h (congrArg Subtype.val hh))

instance (n : Nat) : Repr (Arr n) := ⟨fun a p => reprPrec a.val p⟩

/-- The all-zero `[n]byte` array (the Go zero value of the type). -/
def zeroArr (n : Nat) : Arr n := ⟨Bytes.zeros n, rfl⟩

/-- In-place zeroing of a fixed-size array, as done by `setZero`. -/
def setZeroA {n : Nat} (a : Arr n) : Arr n :=
  ⟨setZero a.val, by rw [blen_setZero, a.property]⟩

theorem setZeroA_setZeroA {n : Nat} (a : Arr n) : setZeroA (setZeroA a) = setZeroA a :=
  Subtype.ext rfl

theorem isZero_setZeroA {n : Nat} (a : Arr n) : isZero (setZeroA a).val = true := rfl

/-- The `handshakeState` enumeration of the source. -/
inductive HandshakeState where
  | handshakeZeroed
  | handshakeInitiationCreated
  | handshakeInitiationConsumed
  | handshakeResponseCreated
  | handshakeResponseConsumed
deriving DecidableEq, Repr

/-- Protocol identifier string constant of the source. -/
def NoiseConstruction : String := "Noise_IKpsk2_25519_ChaChaPoly_BLAKE2s"

/-- Protocol identifier string constant of the source. -/
def WGIdentifier : String := "WireGuard v1 zx2c4 Jason@zx2c4.com"

/-- Bytes of a Go string literal. -/
def strBytes (s : String) : List Nat := s.data.map Char.toNat

/-- Embeds `InitialChainKey = blake2s.Sum256([]byte(NoiseConstruction))`
from the package initialisation of the source. -/
def InitialChainKey : Arr 32 := ⟨.sum256 (.raw (strBytes NoiseConstruction)), rfl⟩

/-- Embeds `mixHash(&InitialHash, &InitialChainKey, []byte(WGIdentifier))`
from the package initialisation of the source. -/
def InitialHash : Arr 32 := ⟨.hashcat InitialChainKey.val (.raw (strBytes WGIdentifier)), rfl⟩

/-- The all-zero ChaCha20-Poly1305 nonce `ZeroNonce` of the source
(12 bytes). -/
def ZeroNonce : Arr 12 := zeroArr 12

/-- Embeds `mixHash(dst, h, data)`: `dst = blake2s(h || data)`. -/
def mixHash (h : Arr 32) (data : Bytes) : Arr 32 := ⟨.hashcat h.val data, rfl⟩

/-- Embeds `mixKey(dst, c, data) = KDF1(c, data)`. -/
def mixKey (c : Arr 32) (data : Bytes) : Arr 32 := ⟨.kdf1 c.val data, rfl⟩

/-- Modelled from the spec: `KDF2(ck, data) -> (ck', k)`, two chained
HMAC outputs; a deterministic pure function (the definition of KDF2 is
not part of this source file).  Being pure, it cannot fail, so the
error branch the source attaches to it is unreachable. -/
def KDF2 (ck : Arr 32) (data : Bytes) : Arr 32 × Arr 32 :=
  (⟨.kdf2fst ck.val data, rfl⟩, ⟨.kdf2snd ck.val data, rfl⟩)

/-- Error values returned by `CreateMessageInitiation` in the source:
a key-generation failure from `newPrivateKey`, the
`errInvalidPublicKey` returned on an all-zero precomputed secret, and
an index-allocation failure from `NewIndexForHandshake`. -/
inductive CreateErr where
  | keyGenFailure
  | errInvalidPublicKey
  | indexAllocFailure
deriving DecidableEq, Repr

/-- Modelled from the spec: the random-bit source generating a fresh
Curve25519 ephemeral private key (`newPrivateKey` is not part of this
source file); the oracle input is `none` on key-generation failure. -/
def newPrivateKey (seed : Option Nat) : Except CreateErr (Arr 32) :=
  match seed with
  | none => .error .keyGenFailure
  | some s => .ok ⟨.privkey s, rfl⟩

/-- Modelled from the spec: the Curve25519 public key of a private key
(pure primitive adapter). -/
def publicKey (sk : Arr 32) : Arr 32 := ⟨.pubkey sk.val, rfl⟩

/-- Modelled from the spec: Curve25519 Diffie-Hellman, a pure function
of the two keys (primitives adapter; `sharedSecret` is not part of this
source file).  Being pure it does not fail, so the error branch the
source attaches to it is unreachable. -/
def sharedSecret (sk pk : Arr 32) : Arr 32 := ⟨.dh sk.val pk.val, rfl⟩

/-- Modelled from the spec: `tai64n.Now()`, the monotonic time source;
the oracle input is the current time. -/
def tai64nNow (now : Nat) : Arr 12 := ⟨.tstamp now, rfl⟩

/-- The `chacha20poly1305.New(key)` constructor of the x/crypto
library: succeeds iff the key is exactly 32 bytes, otherwise returns
`chacha20poly1305: bad key length`. -/
def chacha20poly1305New (key : Bytes) : Except Unit Unit :=
  if blen key = 32 then .ok () else .error ()

/-- AEAD seal of a plaintext of length `n` produces ciphertext plus the
16-byte poly1305 tag. -/
def aeadSeal {n : Nat} (key : Arr 32) (nonce : Arr 12) (pt : Arr n) (ad : Arr 32) :
    Arr (n + 16) :=
  ⟨Bytes.seal key.val nonce.val pt.val ad.val, by simp [blen, pt.property]⟩

/-- The `Handshake` struct of the source (the mutex is a lock, not
data, and is omitted; `time.Time` fields are modelled as `Nat`). -/
structure Handshake where
  state : HandshakeState
  hash : Arr 32
  chainKey : Arr 32
  presharedKey : Arr 32
  localEphemeral : Arr 32
  localIndex : Nat
  remoteIndex : Nat
  remoteStatic : Arr 32
  remoteEphemeral : Arr 32
  precomputedStaticStatic : Arr 32
  lastTimestamp : Arr 12
  lastInitiationConsumption : Nat
  lastSentHandshake : Nat
deriving DecidableEq, Repr

/-- Embeds `Handshake.Clear` of the source: zero the listed secret
fields, reset `localIndex` and the state; every other field is left
untouched. -/
def Handshake.Clear (h : Handshake) : Handshake :=
  { h with
    localEphemeral := setZeroA h.localEphemeral
    remoteEphemeral := setZeroA h.remoteEphemeral
    chainKey := setZeroA h.chainKey
    hash := setZeroA h.hash
    localIndex := 0
    state := .handshakeZeroed }

/-- Embeds the source constant `MessageInitiationType = rand.Intn(100)`:
the tag is a function of the random draw `r` taken from the process-wide
generator at startup, some value in `[0, 100)` depending on `r`. -/
def messageInitiationType (r : Nat) : Nat := r % 100

/-- Embeds the source constant `MessageResponseType = rand.Int63()`: a
function of the random draw of the process, a 63-bit value. -/
def messageResponseType (r : Nat) : Nat := r % (2 ^ 63)

/-- The `MessageInitiation` struct of the source: `Type`(4) +
`Sender`(4) + `Ephemeral`(32) + encrypted `Static`(32+16) + encrypted
`Timestamp`(12+16) + `MAC1`(16) + `MAC2`(16).  The Go field `Type` is a
Lean keyword and is called `msgType` here. -/
structure MessageInitiation where
  msgType : Nat
  Sender : Nat
  Ephemeral : Arr 32
  Static : Arr 48
  Timestamp : Arr 28
  MAC1 : Arr 16
  MAC2 : Arr 16
deriving DecidableEq, Repr

/-- The index table: a finite map from a 32-bit sender index to the
peer it is bound to (peers are identified by a numeric id). -/
abbrev IndexTable : Type := List (Nat × Nat)

/-- Modelled from the spec: `Delete(index)` of the index table,
idempotent removal; deleting an unknown index is a no-op. -/
def indexTableDelete (t : IndexTable) (i : Nat) : IndexTable :=
  t.filter (fun e => e.1 != i)

/-- Membership test on the index table. -/
def indexTableContains (t : IndexTable) (i : Nat) : Bool :=
  t.any (fun e => e.1 == i)

/-- Modelled from the spec: `NewIndexForHandshake(peer, handshake)`
draws random 32-bit candidates, retries on collision, inserts the first
free one bound to the peer and returns it; allocation failure when the
candidate supply is exhausted.  The oracle input is the candidate
stream. -/
def newIndexForHandshake (t : IndexTable) (pid : Nat) : List Nat → Except CreateErr (Nat × IndexTable)
  | [] => .error .indexAllocFailure
  | r :: rest =>
    if indexTableContains t r then newIndexForHandshake t pid rest
    else .ok (r, (r, pid) :: t)

/-- The device state the two handshake operations touch: the static
identity key pair, the process-startup random draw that produced the
message-type tags, the index table and the peer records (peer id to
that peer handshake). -/
structure Device where
  staticPublicKey : Arr 32
  staticPrivateKey : Arr 32
  randTag : Nat
  indexTable : IndexTable
  peers : List (Nat × Handshake)
deriving DecidableEq, Repr

/-- The Go zero value of `Handshake`. -/
def zeroHandshake : Handshake :=
  { state := .handshakeZeroed
    hash := zeroArr 32
    chainKey := zeroArr 32
    presharedKey := zeroArr 32
    localEphemeral := zeroArr 32
    localIndex := 0
    remoteIndex := 0
    remoteStatic := zeroArr 32
    remoteEphemeral := zeroArr 32
    precomputedStaticStatic := zeroArr 32
    lastTimestamp := zeroArr 12
    lastInitiationConsumption := 0
    lastSentHandshake := 0 }

/-- Step events of `CreateMessageInitiation`, in the order the source
performs them, used to state ordering properties of the operation. -/
inductive Ev where
  | evGenEphemeral
  | evMixHashRemoteStatic
  | evMixKeyEphemeral
  | evMixHashEphemeral
  | evSealStatic
  | evMixHashStatic
  | evSealTimestamp
  | evDeleteOldIndex
  | evAssignNewIndex
  | evMixHashTimestamp
  | evSetStateCreated
deriving DecidableEq, Repr

instance {ε α : Type} [DecidableEq ε] [DecidableEq α] : DecidableEq (Except ε α) := fun a b =>
  match a, b with
  | .ok x, .ok y =>
    if h : x = y then .isTrue (by rw [h]) else .isFalse (by intro hh; cases hh; exact h rfl)
  | .error x, .error y =>
    if h : x = y then .isTrue (by rw [h]) else .isFalse (by intro hh; cases hh; exact h rfl)
  | .ok _, .error _ => .isFalse (by intro hh; cases hh)
  | .error _, .ok _ => .isFalse (by intro hh; cases hh)

/-- Result of `CreateMessageInitiation`: the returned message or error,
the peer handshake as left behind (the source mutates it through a
pointer, with no rollback on failure), the index table, and the event
trace of the run. -/
structure CreateOut where
  result : Except CreateErr MessageInitiation
  handshake : Handshake
  indexTable : IndexTable
  trace : List Ev
deriving DecidableEq, Repr

/-- Embeds `Device.CreateMessageInitiation(peer)` of the source, line
by line; `pid` identifies the peer for the index-table binding, `hs0`
is `peer.handshake` on entry, and `ephSeed`, `now`, `cands` are the
oracle inputs of the effectful collaborators (random ephemeral key,
clock, index candidates). -/
def createMessageInitiation (dev : Device) (pid : Nat) (hs0 : Handshake)
    (ephSeed : Option Nat) (now : Nat) (cands : List Nat) : CreateOut :=
  let hs1 := { hs0 with hash := InitialHash, chainKey := InitialChainKey }
  match newPrivateKey ephSeed with
  | .error e => { result := .error e, handshake := hs1, indexTable := dev.indexTable, trace := [] }
  | .ok eph =>
    let hs2 := { hs1 with localEphemeral := eph }
    let hs3 := { hs2 with hash := mixHash hs2.hash hs2.remoteStatic.val }
    let msgEphemeral := publicKey eph
    let hs4 := { hs3 with chainKey := mixKey hs3.chainKey msgEphemeral.val }
    let hs5 := { hs4 with hash := mixHash hs4.hash msgEphemeral.val }
    let ss := sharedSecret eph hs5.remoteStatic
    let ck1 := (KDF2 hs5.chainKey ss.val).1
    let key1 := (KDF2 hs5.chainKey ss.val).2
    let hs6 := { hs5 with chainKey := ck1 }
    let msgStatic : Arr 48 := aeadSeal key1 ZeroNonce dev.staticPublicKey hs6.hash
    let hs7 := { hs6 with hash := mixHash hs6.hash msgStatic.val }
    if isZero hs7.precomputedStaticStatic.val then
      { result := .error .errInvalidPublicKey, handshake := hs7, indexTable := dev.indexTable
        trace := [.evGenEphemeral, .evMixHashRemoteStatic, .evMixKeyEphemeral,
                  .evMixHashEphemeral, .evSealStatic, .evMixHashStatic] }
    else
      let ck2 := (KDF2 hs7.chainKey hs7.precomputedStaticStatic.val).1
      let key2 := (KDF2 hs7.chainKey hs7.precomputedStaticStatic.val).2
      let hs8 := { hs7 with chainKey := ck2 }
      let ts := tai64nNow now
      let msgTimestamp : Arr 28 := aeadSeal key2 ZeroNonce ts hs8.hash
      let t1 := indexTableDelete dev.indexTable hs8.localIndex
      match newIndexForHandshake t1 pid cands with
      | .error e =>
        { result := .error e, handshake := hs8, indexTable := t1
          trace := [.evGenEphemeral, .evMixHashRemoteStatic, .evMixKeyEphemeral,
                    .evMixHashEphemeral, .evSealStatic, .evMixHashStatic,
                    .evSealTimestamp, .evDeleteOldIndex] }
      | .ok (idx, t2) =>
        let hs9 := { hs8 with localIndex := idx }
        let hs10 := { hs9 with hash := mixHash hs9.hash msgTimestamp.val }
        let hs11 := { hs10 with state := .handshakeInitiationCreated }
        { result := .ok
            { msgType := messageInitiationType dev.randTag
              Sender := idx
              Ephemeral := msgEphemeral
              Static := msgStatic
              Timestamp := msgTimestamp
              MAC1 := zeroArr 16
              MAC2 := zeroArr 16 }
          handshake := hs11, indexTable := t2
          trace := [.evGenEphemeral, .evMixHashRemoteStatic, .evMixKeyEphemeral,
                    .evMixHashEphemeral, .evSealStatic, .evMixHashStatic,
                    .evSealTimestamp, .evDeleteOldIndex, .evAssignNewIndex,
                    .evMixHashTimestamp, .evSetStateCreated] }

/-- Result of `ConsumeMessageInitiation`: the returned peer handle (a
peer id, or `none`) and the device state left behind. -/
structure ConsumeOut where
  result : Option Nat
  device : Device
deriving DecidableEq, Repr

/-- Embeds `Device.ConsumeMessageInitiation(msg)` of the source, line
by line.  `NewPeer(index)` is not part of this source file and is
modelled from the spec: it returns a peer handle registered in the
index table under the given index, here a fresh peer record bound to
`msg.Sender` (the preceding `Delete(msg.Sender)` has just removed any
old binding).  The local `timestamp` variable of the source is declared
but never assigned, so it keeps its zero value; the source builds the
timestamp AEAD with `chacha20poly1305.New(msg.Timestamp[:])`, keying
the cipher with the 28-byte encrypted-timestamp field itself. -/
def consumeMessageInitiation (dev : Device) (msg : MessageInitiation) : ConsumeOut :=
  if msg.msgType ≠ messageInitiationType dev.randTag then
    { result := none, device := dev }
  else
    let hash0 := mixHash InitialHash dev.staticPublicKey.val
    let _hash1 := mixHash hash0 msg.Ephemeral.val
    let chainKey0 := mixKey InitialChainKey msg.Ephemeral.val
    let _chainKey1 := (KDF2 chainKey0 msg.Ephemeral.val).1
    let _peerPK := (KDF2 chainKey0 msg.Ephemeral.val).2
    let t1 := indexTableDelete dev.indexTable msg.Sender
    let pid := dev.peers.length
    let dev1 := { dev with indexTable := (msg.Sender, pid) :: t1 }
    let h1 := { zeroHandshake with remoteEphemeral := msg.Ephemeral }
    let h2 := { h1 with hash := mixHash h1.hash msg.Ephemeral.val }
    match chacha20poly1305New msg.Timestamp.val with
    | .error _ => { result := none, device := { dev1 with peers := (pid, h2) :: dev1.peers } }
    | .ok _ =>
      let timestamp := zeroArr 12
      let h3 := { h2 with lastTimestamp := timestamp }
      let h4 := { h3 with hash := mixHash h3.hash msg.Timestamp.val }
      let h5 := { h4 with state := .handshakeInitiationConsumed }
      { result := some pid, device := { dev1 with peers := (pid, h5) :: dev1.peers } }

/-! ## Helper lemmas -/

theorem blen_timestamp_field (msg : MessageInitiation) : blen msg.Timestamp.val = 28 :=
  msg.Timestamp.property

/-- The timestamp-validation step of `ConsumeMessageInitiation` keys
the AEAD with the 28-byte encrypted-timestamp field, so the cipher
constructor always rejects it. -/
theorem chachaNew_timestamp_fails (msg : MessageInitiation) :
    chacha20poly1305New msg.Timestamp.val = .error () := by
  simp [chacha20poly1305New, blen_timestamp_field]

/-- On every input, `ConsumeMessageInitiation` returns no peer: a
mismatched type tag is rejected up front, and a matching one reaches
the unconditionally failing timestamp AEAD constructor. -/
theorem consume_result_none (dev : Device) (msg : MessageInitiation) :
    (consumeMessageInitiation dev msg).result = none := by
  unfold consumeMessageInitiation
  split
  · rfl
  · simp only [chachaNew_timestamp_fails]

/-- On every type-matching input, `ConsumeMessageInitiation` reaches
`NewPeer` and leaves the fresh peer record at the head of the peer
list, with `remoteEphemeral` and `hash` already mutated. -/
theorem consume_mutates (dev : Device) (msg : MessageInitiation)
    (h : msg.msgType = messageInitiationType dev.randTag) :
    (consumeMessageInitiation dev msg).device =
      { dev with
        indexTable := (msg.Sender, dev.peers.length) :: indexTableDelete dev.indexTable msg.Sender
        peers := (dev.peers.length,
          { zeroHandshake with
            remoteEphemeral := msg.Ephemeral
            hash := mixHash (zeroArr 32) msg.Ephemeral.val }) :: dev.peers } := by
  unfold consumeMessageInitiation
  split
  · omega
  · simp only [chachaNew_timestamp_fails]
    rfl

/-- The event trace of every successful `CreateMessageInitiation` run:
the timestamp ciphertext is sealed, then the old index deleted, the
new index assigned, and only then the ciphertext mixed into the
transcript hash. -/
def createFullTrace : List Ev :=
  [.evGenEphemeral, .evMixHashRemoteStatic, .evMixKeyEphemeral, .evMixHashEphemeral,
   .evSealStatic, .evMixHashStatic, .evSealTimestamp, .evDeleteOldIndex,
   .evAssignNewIndex, .evMixHashTimestamp, .evSetStateCreated]

/-- A successful `CreateMessageInitiation` run has the full event
trace, and records the freshly assigned sender index of the message as
`localIndex`. -/
theorem create_success_shape (dev : Device) (pid : Nat) (hs : Handshake)
    (ephSeed : Option Nat) (now : Nat) (cands : List Nat) (m : MessageInitiation)
    (h : (createMessageInitiation dev pid hs ephSeed now cands).result = .ok m) :
    (createMessageInitiation dev pid hs ephSeed now cands).trace = createFullTrace ∧
    (createMessageInitiation dev pid hs ephSeed now cands).handshake.localIndex = m.Sender := by
  cases ephSeed with
  | none => simp [createMessageInitiation, newPrivateKey] at h
  | some s =>
    by_cases hz : isZero hs.precomputedStaticStatic.val = true
    · simp [createMessageInitiation, newPrivateKey, hz] at h
    · rcases hidx : newIndexForHandshake (indexTableDelete dev.indexTable hs.localIndex) pid cands
        with e | ⟨idx, t2⟩
      · simp [createMessageInitiation, newPrivateKey, hz, hidx] at h
      · simp only [createMessageInitiation, newPrivateKey, hz, hidx, Bool.false_eq_true,
          if_false, createFullTrace] at h ⊢
        cases h
        exact ⟨trivial, rfl⟩

/-! ## C1 -/

/-- C1: the claim states the message-type tags are fixed constants,
identical across any two evaluations (e.g. two process instances).  In
the source each tag is drawn from the process random-number generator
at startup (`MessageInitiationType = rand.Intn(100)`), so two
processes whose startup draws differ use different tags: the draws 7
and 42 already give distinct values. -/
theorem C1_message_type_tag_not_fixed :
    messageInitiationType 7 ≠ messageInitiationType 42 := by decide

/-! ## Sample concrete values used by witnesses -/

/-- Sample device: zero static identity, startup random draw 0, empty
index table and peer list. -/
def devW : Device :=
  { staticPublicKey := zeroArr 32
    staticPrivateKey := zeroArr 32
    randTag := 0
    indexTable := []
    peers := [] }

/-- Sample configured peer handshake: a non-zero precomputed
static-static secret. -/
def hsW : Handshake :=
  { zeroHandshake with precomputedStaticStatic := ⟨.raw (List.replicate 32 1), rfl⟩ }

/-- The initiation message produced by the sample successful
`CreateMessageInitiation` run (ephemeral seed 0, time 5, index
candidate 7). -/
def msgW : MessageInitiation :=
  match (createMessageInitiation devW 0 hsW (some 0) 5 [7]).result with
  | .ok m => m
  | .error _ =>
    { msgType := 0, Sender := 0, Ephemeral := zeroArr 32, Static := zeroArr 48
      Timestamp := zeroArr 28, MAC1 := zeroArr 16, MAC2 := zeroArr 16 }

/-- A sample inbound initiation message whose type tag matches the tag
of `devW`. -/
def msgZ : MessageInitiation :=
  { msgType := 0, Sender := 1, Ephemeral := zeroArr 32, Static := zeroArr 48
    Timestamp := zeroArr 28, MAC1 := zeroArr 16, MAC2 := zeroArr 16 }

/-! ## C2 -/

/-- C2: the claim states the round trip
`ConsumeMessageInitiation(CreateMessageInitiation(peer))` succeeds for
the intended responder with equal transcripts.  In this source it
never does: whenever `CreateMessageInitiation` produces a message,
feeding it to any responder device (the intended one included) leaves
`ConsumeMessageInitiation` returning no peer, because the timestamp
AEAD constructor is keyed with the 28-byte encrypted-timestamp field
and always fails. -/
theorem C2_roundtrip_consumption_always_fails (devI devR : Device) (pid : Nat)
    (hs : Handshake) (ephSeed : Option Nat) (now : Nat) (cands : List Nat)
    (m : MessageInitiation)
    (_h : (createMessageInitiation devI pid hs ephSeed now cands).result = .ok m) :
    (consumeMessageInitiation devR m).result = none :=
  consume_result_none devR m

/-- Witness for C2 at the sample run: creation succeeds and the
responder still rejects. -/
theorem C2_roundtrip_witness :
    (createMessageInitiation devW 0 hsW (some 0) 5 [7]).result = .ok msgW ∧
    (consumeMessageInitiation devW msgW).result = none :=
  ⟨rfl, C2_roundtrip_consumption_always_fails devW devW 0 hsW (some 0) 5 [7] msgW rfl⟩

/-! ## C3 -/

/-- C3: the claim states a replayed initiation is rejected with no
side effects.  Rejection indeed always happens (every message is
rejected), but not without side effects: on a type-matching message,
`ConsumeMessageInitiation` has already deleted `msg.Sender` from the
index table and created a fresh mutated peer record before the
unconditional failure, so the device peer list grows by one. -/
theorem C3_reject_is_not_side_effect_free (dev : Device) (msg : MessageInitiation)
    (h : msg.msgType = messageInitiationType dev.randTag) :
    (consumeMessageInitiation dev msg).result = none ∧
    (consumeMessageInitiation dev msg).device.peers.length = dev.peers.length + 1 := by
  refine ⟨consume_result_none dev msg, ?_⟩
  rw [consume_mutates dev msg h]
  rfl

/-- Witness for C3 at a concrete device and message. -/
theorem C3_reject_witness :
    msgZ.msgType = messageInitiationType devW.randTag ∧
    ((consumeMessageInitiation devW msgZ).result = none ∧
      (consumeMessageInitiation devW msgZ).device.peers.length = devW.peers.length + 1) :=
  ⟨rfl, C3_reject_is_not_side_effect_free devW msgZ rfl⟩

/-! ## C4 -/

/-- C4: the claim states that on every failing consumption the
pre-call and post-call states are identical.  They are not: every
type-matching message fails, yet the post-call device differs from the
pre-call device (index table and peer list are mutated before the
failure). -/
theorem C4_failure_is_not_atomic (dev : Device) (msg : MessageInitiation)
    (h : msg.msgType = messageInitiationType dev.randTag) :
    (consumeMessageInitiation dev msg).result = none ∧
    (consumeMessageInitiation dev msg).device ≠ dev := by
  refine ⟨consume_result_none dev msg, ?_⟩
  rw [consume_mutates dev msg h]
  intro hc
  have hlen := congrArg (fun d => d.peers.length) hc
  simp at hlen

/-- Witness for C4 at a concrete device and message. -/
theorem C4_failure_witness :
    msgZ.msgType = messageInitiationType devW.randTag ∧
    ((consumeMessageInitiation devW msgZ).result = none ∧
      (consumeMessageInitiation devW msgZ).device ≠ devW) :=
  ⟨rfl, C4_failure_is_not_atomic devW msgZ rfl⟩

/-! ## C5 -/

/-- C5: the claimed success postcondition speaks about runs on which
`ConsumeMessageInitiation` returns a peer handle; in this source no
such run exists, on every input the operation returns no peer, so the
success path of the source (which moreover never registers
`msg.Sender` as `remoteIndex` and would store the never-decrypted zero
timestamp) is unreachable. -/
theorem C5_consume_success_unreachable (dev : Device) (msg : MessageInitiation) :
    (consumeMessageInitiation dev msg).result = none :=
  consume_result_none dev msg

/-! ## C6 -/

/-- C6: on every type-matching input `ConsumeMessageInitiation`
returns no peer (its timestamp validation keys ChaCha20-Poly1305 with
the 28-byte encrypted-timestamp field, which the cipher rejects), yet
the handshake of the freshly created peer record has already been
mutated: `remoteEphemeral` holds the message ephemeral and the hash
has been mixed. -/
theorem C6_consume_always_nil_yet_mutates (dev : Device) (msg : MessageInitiation)
    (h : msg.msgType = messageInitiationType dev.randTag) :
    (consumeMessageInitiation dev msg).result = none ∧
    (consumeMessageInitiation dev msg).device.peers.head? =
      some (dev.peers.length,
        { zeroHandshake with
          remoteEphemeral := msg.Ephemeral
          hash := mixHash (zeroArr 32) msg.Ephemeral.val }) := by
  refine ⟨consume_result_none dev msg, ?_⟩
  rw [consume_mutates dev msg h]
  rfl

/-- Witness for C6 at a concrete device and message. -/
theorem C6_consume_witness :
    msgZ.msgType = messageInitiationType devW.randTag ∧
    ((consumeMessageInitiation devW msgZ).result = none ∧
      (consumeMessageInitiation devW msgZ).device.peers.head? =
        some (devW.peers.length,
          { zeroHandshake with
            remoteEphemeral := msgZ.Ephemeral
            hash := mixHash (zeroArr 32) msgZ.Ephemeral.val })) :=
  ⟨rfl, C6_consume_always_nil_yet_mutates devW msgZ rfl⟩

/-! ## C7 -/

/-- C7: for every peer whose precomputed static-static secret is
all-zero, `CreateMessageInitiation` fails with an error and returns no
message (if ephemeral generation already failed, with that error;
otherwise with `errInvalidPublicKey` at the explicit zero check). -/
theorem C7_zero_precomputed_secret_aborts (dev : Device) (pid : Nat) (hs : Handshake)
    (ephSeed : Option Nat) (now : Nat) (cands : List Nat)
    (h : isZero hs.precomputedStaticStatic.val = true) :
    ∃ e, (createMessageInitiation dev pid hs ephSeed now cands).result = .error e := by
  cases ephSeed with
  | none => exact ⟨.keyGenFailure, rfl⟩
  | some s =>
    exact ⟨.errInvalidPublicKey, by simp [createMessageInitiation, newPrivateKey, h]⟩

/-- Witness for C7: the zero handshake has an all-zero precomputed
secret and creation aborts on it. -/
theorem C7_zero_secret_witness :
    isZero zeroHandshake.precomputedStaticStatic.val = true ∧
    ∃ e, (createMessageInitiation devW 3 zeroHandshake (some 1) 9 [4]).result = .error e :=
  ⟨rfl, C7_zero_precomputed_secret_aborts devW 3 zeroHandshake (some 1) 9 [4] rfl⟩

/-! ## C8 -/

/-- C8: on every successful run of `CreateMessageInitiation` the event
trace is the full trace, in which the old-index deletion and the fresh
index assignment fall strictly after the timestamp ciphertext is
sealed and strictly before that ciphertext is mixed into the
transcript hash, and the assigned sender index of the message is
recorded as `localIndex`. -/
theorem C8_index_assignment_ordering (dev : Device) (pid : Nat) (hs : Handshake)
    (ephSeed : Option Nat) (now : Nat) (cands : List Nat) (m : MessageInitiation)
    (h : (createMessageInitiation dev pid hs ephSeed now cands).result = .ok m) :
    (createMessageInitiation dev pid hs ephSeed now cands).trace = createFullTrace ∧
    (createMessageInitiation dev pid hs ephSeed now cands).trace.indexOf Ev.evSealTimestamp <
      (createMessageInitiation dev pid hs ephSeed now cands).trace.indexOf Ev.evDeleteOldIndex ∧
    (createMessageInitiation dev pid hs ephSeed now cands).trace.indexOf Ev.evDeleteOldIndex <
      (createMessageInitiation dev pid hs ephSeed now cands).trace.indexOf Ev.evAssignNewIndex ∧
    (createMessageInitiation dev pid hs ephSeed now cands).trace.indexOf Ev.evAssignNewIndex <
      (createMessageInitiation dev pid hs ephSeed now cands).trace.indexOf Ev.evMixHashTimestamp ∧
    (createMessageInitiation dev pid hs ephSeed now cands).handshake.localIndex = m.Sender := by
  obtain ⟨ht, hl⟩ := create_success_shape dev pid hs ephSeed now cands m h
  rw [ht]
  exact ⟨rfl, by decide, by decide, by decide, hl⟩

/-- Witness for C8 at the sample successful run. -/
theorem C8_ordering_witness :
    (createMessageInitiation devW 0 hsW (some 0) 5 [7]).result = .ok msgW ∧
    ((createMessageInitiation devW 0 hsW (some 0) 5 [7]).trace = createFullTrace ∧
      (createMessageInitiation devW 0 hsW (some 0) 5 [7]).trace.indexOf Ev.evSealTimestamp <
        (createMessageInitiation devW 0 hsW (some 0) 5 [7]).trace.indexOf Ev.evDeleteOldIndex ∧
      (createMessageInitiation devW 0 hsW (some 0) 5 [7]).trace.indexOf Ev.evDeleteOldIndex <
        (createMessageInitiation devW 0 hsW (some 0) 5 [7]).trace.indexOf Ev.evAssignNewIndex ∧
      (createMessageInitiation devW 0 hsW (some 0) 5 [7]).trace.indexOf Ev.evAssignNewIndex <
        (createMessageInitiation devW 0 hsW (some 0) 5 [7]).trace.indexOf Ev.evMixHashTimestamp ∧
      (createMessageInitiation devW 0 hsW (some 0) 5 [7]).handshake.localIndex = msgW.Sender) :=
  ⟨rfl, C8_index_assignment_ordering devW 0 hsW (some 0) 5 [7] msgW rfl⟩

/-! ## C9 and C10 -/

/-- C9: after one `Clear` the fields `localEphemeral`,
`remoteEphemeral`, `chainKey` and `hash` are all-zero, `localIndex` is
`0` and `state` is `handshakeZeroed`; a second `Clear` leaves the
handshake unchanged. -/
theorem C9_clear_idempotent_and_zeroes (h : Handshake) :
    isZero (Handshake.Clear h).localEphemeral.val = true ∧
    isZero (Handshake.Clear h).remoteEphemeral.val = true ∧
    isZero (Handshake.Clear h).chainKey.val = true ∧
    isZero (Handshake.Clear h).hash.val = true ∧
    (Handshake.Clear h).localIndex = 0 ∧
    (Handshake.Clear h).state = .handshakeZeroed ∧
    Handshake.Clear (Handshake.Clear h) = Handshake.Clear h :=
  ⟨rfl, rfl, rfl, rfl, rfl, rfl, rfl⟩

/-- C10: `Clear` leaves every field it does not explicitly reset
unchanged: `remoteIndex`, `remoteStatic`, `presharedKey`,
`precomputedStaticStatic`, `lastTimestamp`,
`lastInitiationConsumption` and `lastSentHandshake` keep their prior
values. -/
theorem C10_clear_frame (h : Handshake) :
    (Handshake.Clear h).remoteIndex = h.remoteIndex ∧
    (Handshake.Clear h).remoteStatic = h.remoteStatic ∧
    (Handshake.Clear h).presharedKey = h.presharedKey ∧
    (Handshake.Clear h).precomputedStaticStatic = h.precomputedStaticStatic ∧
    (Handshake.Clear h).lastTimestamp = h.lastTimestamp ∧
    (Handshake.Clear h).lastInitiationConsumption = h.lastInitiationConsumption ∧
    (Handshake.Clear h).lastSentHandshake = h.lastSentHandshake :=
  ⟨rfl, rfl, rfl, rfl, rfl, rfl, rfl⟩

end WG
